import Mathlib

/-!
# ZapStream deployed backend: shallow embedding and verification

This file embeds the deployed serverless backend of ZapStream — the Lambda
handler `lambda_simple.py` (routes `POST /events`, `GET /inbox`,
`POST /inbox/{id}/ack`, `DELETE /inbox/{id}`, plus `/health` and CORS
preflight) together with the DynamoDB operations it performs
(`put_item`, `scan` with a filter expression, `update_item`, `delete_item`)
— and proves or refutes the specification's claims about it.

The DynamoDB table is modelled as a list of items in scan order; `scan`'s
`Limit` parameter bounds the number of items *examined before* the
`FilterExpression` is applied, matching DynamoDB semantics. `update_item`
upserts: when no item with the given key exists, it creates one carrying
only the key attributes and the updated attribute. `uuid.uuid4()` and
`datetime.utcnow()` are modelled as explicit `freshId` / `now` arguments
to the handler.
-/

namespace ZapStream

/-- A DynamoDB item as written by the handler's `POST /events` branch
(`lambda_simple.py`): key attributes `tenant_id`, `event_id`, plus
`created_at`, `source`, `type`, `topic`, `payload`, `status`, and an
optional `idempotency_key`.  `payload` is opaque to the backend and is
modelled as a string. -/
structure Item where
  tenant_id : String
  event_id : String
  created_at : String
  source : String
  type : String
  topic : String
  payload : String
  status : String
  idempotency_key : Option String
deriving Repr, DecidableEq

/-- The DynamoDB table, as a list of items in scan order. DynamoDB scan
order is by internal key hash and is unrelated to `created_at`. -/
abbrev Table := List Item

/-- Key equality for the table's primary key `(tenant_id, event_id)`. -/
def keyMatches (tenant id : String) (it : Item) : Bool :=
  it.tenant_id == tenant && it.event_id == id

/-- `table.put_item(Item=item)`: replaces the item with the same primary
key if one exists, otherwise appends. -/
def put_item (tbl : Table) (it : Item) : Table :=
  if tbl.any (keyMatches it.tenant_id it.event_id) then
    tbl.map (fun x => if keyMatches it.tenant_id it.event_id x then it else x)
  else
    tbl ++ [it]

/-- `table.update_item(Key=..., UpdateExpression='SET #status = :status')`:
sets `status` on the keyed item when it exists; otherwise *creates* an item
holding only the key attributes and the updated attribute (DynamoDB
`update_item` upserts). -/
def update_status (tbl : Table) (tenant id newStatus : String) : Table :=
  if tbl.any (keyMatches tenant id) then
    tbl.map (fun x => if keyMatches tenant id x then { x with status := newStatus } else x)
  else
    tbl ++ [{ tenant_id := tenant, event_id := id, created_at := "", source := "",
              type := "", topic := "", payload := "", status := newStatus,
              idempotency_key := none }]

/-- `table.delete_item(Key=...)`: removes the keyed item; a no-op when the
key is absent (DynamoDB delete never fails on a missing key). -/
def delete_item (tbl : Table) (tenant id : String) : Table :=
  tbl.filter (fun x => !(keyMatches tenant id x))

/-- `table.scan(FilterExpression='tenant_id = :tenant_id', Limit=50)`:
DynamoDB applies `Limit` to the items examined *before* the filter
expression, so at most the first 50 items in scan order are considered,
and of those only the caller's tenant's items are returned. -/
def scan_tenant (tbl : Table) (tenant : String) (lim : Nat) : List Item :=
  (tbl.take lim).filter (fun x => x.tenant_id == tenant)

/-- Prefix test on character lists (the computational core of Python's
`str.startswith`). -/
def listIsPref : List Char → List Char → Bool
  | _, [] => true
  | [], _ :: _ => false
  | a :: as, b :: bs => a == b && listIsPref as bs

/-- Python's `str.startswith(pre)`. -/
def strStarts (s pre : String) : Bool := listIsPref s.data pre.data

/-- Python's `str.endswith(suf)`. -/
def strEnds (s suf : String) : Bool := listIsPref s.data.reverse suf.data.reverse

/-- Python's slice `s[n:]`. -/
def strDrop (s : String) (n : Nat) : String := ⟨s.data.drop n⟩

/-- Split a character list at every occurrence of `sep` (the computational
core of Python's `str.split(sep)` for a one-character separator). -/
def splitChar (sep : Char) : List Char → List (List Char)
  | [] => [[]]
  | c :: cs =>
    match splitChar sep cs with
    | [] => if c == sep then [[], []] else [[c]]
    | h :: t => if c == sep then [] :: h :: t else (c :: h) :: t

/-- Python's `str.split(sep)` for a one-character separator; on
`"/inbox/e1/ack"` with `'/'` it yields `["", "inbox", "e1", "ack"]`. -/
def strSplit (s : String) (sep : Char) : List String :=
  (splitChar sep s.data).map (fun l => ⟨l⟩)

/-- The hardcoded `API_KEYS` mapping of `lambda_simple.py`. -/
def API_KEYS : List (String × String) :=
  [("dev_key_123", "tenant_dev"), ("prod_key_456", "tenant_prod")]

/-- `dict.get` over an association list, as used for `API_KEYS.get(api_key)`. -/
def dictGet (m : List (String × String)) (k : String) : Option String :=
  match m.find? (fun p => p.fst == k) with
  | some p => some p.snd
  | none => none

/-- The parsed JSON request body of `POST /events`. Each field is `none`
when the corresponding key is absent from the JSON object; `payload` is
opaque and modelled as a string. An all-`none` body models `{}` (also the
default for a missing body, per `event.get('body', '{}')`). -/
structure Body where
  source : Option String
  type : Option String
  topic : Option String
  payload : Option String
  idempotency_key : Option String

/-- The HTTP request surface reaching the Lambda. `authorization` is the
`Authorization` header (empty string when absent, matching
`headers.get('Authorization','')`). `xApiKey` (the `X-API-Key` header)
and `apiKeyQuery` (the `?api_key=` query parameter) are present on the
wire but never read by this handler; `limitQuery` is the `?limit=` query
parameter, likewise never read. `body` is the parsed JSON body: `none`
when the body is not valid JSON (so `json.loads` raises). -/
structure Request where
  httpMethod : String
  path : String
  authorization : String
  xApiKey : String
  apiKeyQuery : String
  limitQuery : Option String
  body : Option Body

/-- `get_tenant_from_auth`: reads only the `Authorization` header; when it
starts with `"Bearer "`, looks the remainder up in `API_KEYS`; otherwise
`None`.  (The `X-API-Key` header and `api_key` query parameter are never
consulted.) -/
def get_tenant_from_auth (req : Request) : Option String :=
  if strStarts req.authorization "Bearer " then
    dictGet API_KEYS (strDrop req.authorization 7)
  else
    none

/-- The projection of an item placed in the `GET /inbox` response body:
`event_id`, `created_at`, `source`, `type`, `topic`, `payload`, `status`
(neither `tenant_id` nor `idempotency_key` is echoed). -/
structure ItemView where
  event_id : String
  created_at : String
  source : String
  type : String
  topic : String
  payload : String
  status : String
deriving Repr, DecidableEq

/-- Build the `GET /inbox` response entry for one stored item. -/
def toView (it : Item) : ItemView :=
  { event_id := it.event_id, created_at := it.created_at, source := it.source,
    type := it.type, topic := it.topic, payload := it.payload, status := it.status }

/-- A response body, covering every shape `lambda_simple.py` returns. -/
inductive Resp where
  | error (msg : String)
  | createdResp (event_id : String) (status : String) (created_at : String)
  | inboxResp (events : List ItemView) (count : Nat) (limit : Nat)
  | ackedResp (event_id : String) (status : String)
  | deletedResp (event_id : String) (status : String)
  | healthResp
  | emptyResp
deriving Repr, DecidableEq

/-- The items the `GET /inbox` branch selects for a tenant: the scan with
`FilterExpression 'tenant_id = :tenant_id'` and `Limit=50`. -/
def inboxItems (tbl : Table) (tenant : String) : List Item :=
  scan_tenant tbl tenant 50

/-- The `POST /events` branch, after authentication: validates that
`source`, `type`, `topic`, `payload` are present (in that order), then
builds the item with a fresh `event_id` and `status = 'pending'`, storing
`idempotency_key` when supplied, and `put_item`s it unconditionally —
there is no idempotency lookup, no rate-limiter consultation. Returns
the `(statusCode, body)` pair and the new table. -/
def postEvents (tbl : Table) (tenant : String) (b : Body) (freshId now : String) :
    (Nat × Resp) × Table :=
  if b.source.isNone then ((400, .error "Missing required field: source"), tbl)
  else if b.type.isNone then ((400, .error "Missing required field: type"), tbl)
  else if b.topic.isNone then ((400, .error "Missing required field: topic"), tbl)
  else if b.payload.isNone then ((400, .error "Missing required field: payload"), tbl)
  else
    let item : Item :=
      { tenant_id := tenant, event_id := freshId, created_at := now,
        source := b.source.getD "", type := b.type.getD "",
        topic := b.topic.getD "", payload := b.payload.getD "",
        status := "pending", idempotency_key := b.idempotency_key }
    ((201, .createdResp freshId "created" now), put_item tbl item)

/-- The Lambda `handler`: dispatches on method and path exactly as the
`if/elif` chain of `lambda_simple.py` does, resolving the tenant through
`get_tenant_from_auth` on every data route and answering 401 when it
yields `None`. `freshId` models `uuid.uuid4()` and `now` models
`datetime.utcnow().isoformat()`. Returns the `(statusCode, body)`
response and the table after any store side effect. On the ack and
delete routes a path like `/inbox//ack` yields the empty event id;
DynamoDB rejects the empty-string key attribute (`ValidationException`),
which the branches' `except` handlers surface as a 500 — modelled by the
explicit empty-id checks before the store call. -/
def handler (tbl : Table) (req : Request) (freshId now : String) :
    (Nat × Resp) × Table :=
  if req.httpMethod == "OPTIONS" then ((200, .emptyResp), tbl)
  else if req.path == "/health" && req.httpMethod == "GET" then
    ((200, .healthResp), tbl)
  else if req.path == "/events" && req.httpMethod == "POST" then
    match get_tenant_from_auth req with
    | none => ((401, .error "Invalid or missing API key"), tbl)
    | some tenant =>
      match req.body with
      | none => ((500, .error "Internal server error"), tbl)
      | some b => postEvents tbl tenant b freshId now
  else if req.path == "/inbox" && req.httpMethod == "GET" then
    match get_tenant_from_auth req with
    | none => ((401, .error "Invalid or missing API key"), tbl)
    | some tenant =>
      let evs := inboxItems tbl tenant
      ((200, .inboxResp (evs.map toView) evs.length 50), tbl)
  else if strStarts req.path "/inbox/" && req.httpMethod == "POST"
          && strEnds req.path "/ack" then
    match get_tenant_from_auth req with
    | none => ((401, .error "Invalid or missing API key"), tbl)
    | some tenant =>
      let event_id := (strSplit req.path '/').getD 2 ""
      -- DynamoDB rejects an empty-string key attribute (ValidationException);
      -- the branch's `except` turns that into the 500 response, unchanged table
      if event_id == "" then ((500, .error "Internal server error"), tbl)
      else
        ((200, .ackedResp event_id "acknowledged"),
          update_status tbl tenant event_id "acknowledged")
  else if strStarts req.path "/inbox/" && req.httpMethod == "DELETE" then
    match get_tenant_from_auth req with
    | none => ((401, .error "Invalid or missing API key"), tbl)
    | some tenant =>
      let event_id := (strSplit req.path '/').getD 2 ""
      -- same DynamoDB empty-key rejection surfaced as 500 by the `except`
      if event_id == "" then ((500, .error "Internal server error"), tbl)
      else
        ((200, .deletedResp event_id "deleted"), delete_item tbl tenant event_id)
  else ((404, .error "Not found"), tbl)

/-! ## Concrete fixtures: requests and stored events used in the theorems -/

/-- `Authorization` header value carrying the dev credential. -/
def devAuth : String := "Bearer dev_key_123"

/-- A valid `POST /events` JSON body (all four required fields present),
with an optional `idempotency_key`. -/
def ingestBody (k : Option String) : Body :=
  { source := some "billing", type := some "invoice.paid", topic := some "finance",
    payload := some "invoice-payload", idempotency_key := k }

/-- A well-formed, authenticated `POST /events` request. -/
def ingestReq (k : Option String) : Request :=
  { httpMethod := "POST", path := "/events", authorization := devAuth,
    xApiKey := "", apiKeyQuery := "", limitQuery := none, body := some (ingestBody k) }

/-- An authenticated `GET /inbox` request, optionally carrying a `?limit=`
query parameter. -/
def inboxReq (lim : Option String) : Request :=
  { httpMethod := "GET", path := "/inbox", authorization := devAuth,
    xApiKey := "", apiKeyQuery := "", limitQuery := lim, body := none }

/-- An authenticated `POST /inbox/{id}/ack` request. -/
def ackReq (id : String) : Request :=
  { httpMethod := "POST", path := "/inbox/" ++ id ++ "/ack", authorization := devAuth,
    xApiKey := "", apiKeyQuery := "", limitQuery := none, body := none }

/-- An authenticated `DELETE /inbox/{id}` request. -/
def deleteReq (id : String) : Request :=
  { httpMethod := "DELETE", path := "/inbox/" ++ id, authorization := devAuth,
    xApiKey := "", apiKeyQuery := "", limitQuery := none, body := none }

/-- A `GET /inbox` request authenticated only through the `X-API-Key`
header (no `Authorization` header). -/
def xApiKeyReq : Request :=
  { httpMethod := "GET", path := "/inbox", authorization := "", xApiKey := "dev_key_123",
    apiKeyQuery := "", limitQuery := none, body := none }

/-- A `GET /inbox` request authenticated only through the `?api_key=`
query parameter. -/
def queryKeyReq : Request :=
  { httpMethod := "GET", path := "/inbox", authorization := "", xApiKey := "",
    apiKeyQuery := "dev_key_123", limitQuery := none, body := none }

/-- A pending `tenant_dev` event with the earlier `created_at`. -/
def evtEarly : Item :=
  { tenant_id := "tenant_dev", event_id := "e1", created_at := "2025-01-01T00:00:00",
    source := "billing", type := "invoice.paid", topic := "finance",
    payload := "p1", status := "pending", idempotency_key := none }

/-- A pending `tenant_dev` event with the later `created_at`. -/
def evtLate : Item :=
  { tenant_id := "tenant_dev", event_id := "e2", created_at := "2025-01-02T00:00:00",
    source := "billing", type := "invoice.paid", topic := "finance",
    payload := "p2", status := "pending", idempotency_key := none }

/-- An acknowledged `tenant_dev` event. -/
def evtAcked : Item :=
  { tenant_id := "tenant_dev", event_id := "e3", created_at := "2025-01-03T00:00:00",
    source := "billing", type := "invoice.paid", topic := "finance",
    payload := "p3", status := "acknowledged", idempotency_key := none }

/-- A pending event belonging to the other tenant, `tenant_prod`. -/
def evtOtherTenant : Item :=
  { tenant_id := "tenant_prod", event_id := "p0", created_at := "2025-01-01T00:00:00",
    source := "billing", type := "invoice.paid", topic := "finance",
    payload := "q0", status := "pending", idempotency_key := none }

/-- Lexicographic strict order on character lists. -/
def charListLt : List Char → List Char → Bool
  | [], [] => false
  | [], _ :: _ => true
  | _ :: _, [] => false
  | a :: as, b :: bs => a < b || (a == b && charListLt as bs)

/-- Lexicographic strict order on strings — the order of ISO-8601
`created_at` timestamps, the "ascending `created_at`" order the inbox
contract prescribes. -/
def strLt (s t : String) : Bool := charListLt s.data t.data

/-- `n` consecutive ingestions of valid events with the dev credential,
all within the same minute (`now` fixed), starting from the empty table;
call `i` uses fresh id `"id" ++ toString i`. -/
def ingestIter : Nat → Table
  | 0 => []
  | n + 1 =>
      (handler (ingestIter n) (ingestReq none) ("id" ++ toString n)
        "2025-01-01T00:00:00").2

/-- First ingestion of a `tenant_dev` event with idempotency key `"k1"`,
starting from the empty table. -/
def c1Step1 : (Nat × Resp) × Table :=
  handler [] (ingestReq (some "k1")) "e1" "2025-01-01T00:00:00"

/-- Retry of the identical ingestion (same credential, same body, same
idempotency key `"k1"`) against the table left by `c1Step1`; `uuid.uuid4()`
yields a different fresh id. -/
def c1Step2 : (Nat × Resp) × Table :=
  handler c1Step1.2 (ingestReq (some "k1")) "e2" "2025-01-01T00:00:01"

/-- Deleting the pending event `e1`, then acking the same id. -/
def c3AfterDelete : (Nat × Resp) × Table :=
  handler [evtEarly] (deleteReq "e1") "f1" "2025-01-05T00:00:00"

/-- The ack that follows the delete of `e1`. -/
def c3AckAfterDelete : (Nat × Resp) × Table :=
  handler c3AfterDelete.2 (ackReq "e1") "f2" "2025-01-05T00:00:01"

/-!
## Theorems

Each claim of the specification is settled by one theorem below.
-/

/-- C1 — the claim fails on the code: the `POST /events` branch performs no
`(tenant_id, idempotency_key)` lookup before writing. A second ingest call
with the same tenant and the same non-null idempotency key `"k1"` returns a
*different* event id (`"e2"`, not the stored `"e1"`), and afterwards the
store holds *two* events for `(tenant_dev, "k1")` — contradicting "all
callers observe the same event id, and exactly one stored event exists". -/
theorem ingest_same_idempotency_key_creates_duplicate :
    c1Step1.1 = (201, .createdResp "e1" "created" "2025-01-01T00:00:00") ∧
    c1Step2.1 = (201, .createdResp "e2" "created" "2025-01-01T00:00:01") ∧
    ("e1" : String) ≠ "e2" ∧
    (c1Step2.2.filter (fun it =>
      it.tenant_id == "tenant_dev" && it.idempotency_key == some "k1")).length = 2 := by
  decide

/-- C2 — the claim fails on the code: the `GET /inbox` scan filters only on
`tenant_id`, never on `status`, so an event with `status = "acknowledged"`
is returned by the inbox list. (Events with status `deleted` indeed never
appear, since `DELETE /inbox/{id}` removes the row.) -/
theorem inbox_returns_acknowledged_event :
    (handler [evtAcked] (inboxReq none) "f1" "2025-01-05T00:00:00").1
      = (200, .inboxResp [toView evtAcked] 1 50) ∧
    evtAcked.status = "acknowledged" := by
  decide

/-- C3 — the deleted branch of the claim fails on the code: after
`DELETE /inbox/e1` removes the event, `POST /inbox/e1/ack` still answers
`200 {status: acknowledged}` (the unconditional `update_item` recreates the
row), not the `409 InvalidTransition` conflict the claim requires. -/
theorem ack_after_delete_returns_success :
    c3AfterDelete.1 = (200, .deletedResp "e1" "deleted") ∧
    c3AfterDelete.2 = [] ∧
    c3AckAfterDelete.1 = (200, .ackedResp "e1" "acknowledged") ∧
    c3AckAfterDelete.1.1 ≠ 409 := by
  decide

/-- C4 — the claim fails on the code: with an empty store (so the id
`"ghost"` exists under no tenant), both `POST /inbox/ghost/ack` and
`DELETE /inbox/ghost` answer `200` success bodies — `update_item` upserts
and `delete_item` is a silent no-op — never the required `404 NotFound`. -/
theorem missing_event_ack_and_delete_return_success :
    (handler [] (ackReq "ghost") "f1" "2025-01-05T00:00:00").1
      = (200, .ackedResp "ghost" "acknowledged") ∧
    (handler [] (ackReq "ghost") "f1" "2025-01-05T00:00:00").1.1 ≠ 404 ∧
    (handler [] (deleteReq "ghost") "f1" "2025-01-05T00:00:00").1
      = (200, .deletedResp "ghost" "deleted") ∧
    (handler [] (deleteReq "ghost") "f1" "2025-01-05T00:00:00").1.1 ≠ 404 := by
  decide

/-- C5 — the claim fails on the code: the `GET /inbox` branch never reads
the `limit` query parameter. A request with `limit=1000` (outside `[1,500]`)
is answered `200`, not a `400` validation error; and a request with
`limit=1` (inside the range) still returns two events, so an in-range limit
does not bound the result count. The scan is always issued with the fixed
`Limit=50`. -/
theorem inbox_limit_parameter_ignored :
    (handler [evtEarly, evtLate] (inboxReq (some "1000")) "f1" "2025-01-05T00:00:00").1.1
      = 200 ∧
    (handler [evtEarly, evtLate] (inboxReq (some "1000")) "f1" "2025-01-05T00:00:00").1.1
      ≠ 400 ∧
    (handler [evtEarly, evtLate] (inboxReq (some "1")) "f1" "2025-01-05T00:00:00").1
      = (200, .inboxResp [toView evtEarly, toView evtLate] 2 50) := by
  decide

/-- C6 — the claim fails on the code: the inbox is a raw DynamoDB scan.
With the two pending events stored in scan order `[evtLate, evtEarly]`
(scan order is key-hash order, unrelated to `created_at`), the list returns
them in that order even though `evtEarly.created_at < evtLate.created_at`,
violating ascending `created_at` order; no response ever carries a
`next_cursor` (the handler never emits one), so this single page is the
whole traversal. Moreover, because the scan's `Limit=50` bounds the items
examined *before* the tenant filter, a table whose first 50 items in scan
order belong to another tenant makes the traversal omit `tenant_dev`'s
pending event entirely. -/
theorem inbox_traversal_unordered_and_omits :
    (handler [evtLate, evtEarly] (inboxReq none) "f1" "2025-01-05T00:00:00").1
      = (200, .inboxResp [toView evtLate, toView evtEarly] 2 50) ∧
    strLt evtEarly.created_at evtLate.created_at = true ∧
    (handler (List.replicate 50 evtOtherTenant ++ [evtEarly]) (inboxReq none)
        "f1" "2025-01-05T00:00:00").1
      = (200, .inboxResp [] 0 50) := by
  decide

/-- Any well-formed authenticated ingestion is admitted with `201`,
whatever the store state: the handler consults no rate limiter. -/
theorem valid_ingest_always_201 (tbl : Table) (fid now : String) :
    (handler tbl (ingestReq none) fid now).1.1 = 201 := rfl

/-- C7 — the claim fails on the code: after 60 ingestions with the
`dev_key_123` credential in the same minute (the configured
requests-per-minute budget), the 61st ingest call with that same
credential is still answered `201`, not `RateLimited`/`429`: no rate
limiter exists on the ingestion path. -/
theorem rate_limited_never_returned_cex :
    (handler (ingestIter 60) (ingestReq none) "id60" "2025-01-01T00:00:00").1.1 = 201 ∧
    (201 : Nat) ≠ 429 :=
  ⟨valid_ingest_always_201 _ _ _, by decide⟩

/-- C7 (amended) — the deployed handler performs no rate limiting at all:
no request, on any store state, is ever answered with HTTP 429. -/
theorem handler_never_returns_429 (tbl : Table) (req : Request) (fid now : String) :
    (handler tbl req fid now).1.1 ≠ 429 := by
  unfold handler postEvents
  repeat' split
  all_goals
    first
      | exact (by decide : (200 : Nat) ≠ 429)
      | exact (by decide : (201 : Nat) ≠ 429)
      | exact (by decide : (400 : Nat) ≠ 429)
      | exact (by decide : (401 : Nat) ≠ 429)
      | exact (by decide : (404 : Nat) ≠ 429)
      | exact (by decide : (500 : Nat) ≠ 429)
      | (dsimp only
         split
         all_goals
           first
             | exact (by decide : (200 : Nat) ≠ 429)
             | exact (by decide : (500 : Nat) ≠ 429))

/-- C8 — the claim fails on the code: `get_tenant_from_auth` reads only the
`Authorization` header. A request carrying the valid credential in the
`X-API-Key` header (or in the `?api_key=` query parameter) but no
`Authorization` header is rejected with `401`, instead of being
authenticated via the fallback channels the claim prescribes. -/
theorem x_api_key_and_query_key_rejected :
    (handler [evtEarly] xApiKeyReq "f1" "2025-01-05T00:00:00").1
      = (401, .error "Invalid or missing API key") ∧
    (handler [evtEarly] queryKeyReq "f1" "2025-01-05T00:00:00").1
      = (401, .error "Invalid or missing API key") := by
  decide

/-- C9 — confirmed: the `GET /inbox` branch scans with
`FilterExpression 'tenant_id = :tenant_id'` bound to the caller's resolved
tenant, so for any store state the response lists exactly the scanned items
of the caller's tenant, and no event whose `tenant_id` is a different
tenant `t2` ever appears among the selected events. -/
theorem inbox_tenant_isolation (tbl : Table) (req : Request) (t1 t2 fid now : String)
    (hm : req.httpMethod = "GET") (hp : req.path = "/inbox")
    (ha : get_tenant_from_auth req = some t1) (hne : t2 ≠ t1) :
    (handler tbl req fid now).1
      = (200, .inboxResp ((inboxItems tbl t1).map toView)
          (inboxItems tbl t1).length 50) ∧
    ∀ it ∈ inboxItems tbl t1, it.tenant_id ≠ t2 := by
  constructor
  · obtain ⟨m, p, a, x, q, l, b⟩ := req
    simp only at hm hp ha
    subst hm hp
    simp [handler, ha]
  · intro it hit
    have hmem := List.mem_filter.mp hit
    have hteq : it.tenant_id = t1 := by
      have := hmem.2
      simpa using this
    rw [hteq]
    exact fun hcontra => hne hcontra.symm

/-- Witness for C9 at a concrete store, request and tenant pair. -/
theorem inbox_tenant_isolation_witness :
    (handler [evtEarly] (inboxReq none) "f1" "2025-01-05T00:00:00").1
      = (200, .inboxResp ((inboxItems [evtEarly] "tenant_dev").map toView)
          (inboxItems [evtEarly] "tenant_dev").length 50) ∧
    ∀ it ∈ inboxItems [evtEarly] "tenant_dev", it.tenant_id ≠ "tenant_prod" :=
  inbox_tenant_isolation [evtEarly] (inboxReq none) "tenant_dev" "tenant_prod"
    "f1" "2025-01-05T00:00:00" rfl rfl (by decide) (by decide)

/-! ### Path-parsing lemmas for the ack route, for arbitrary event ids -/

/-- Every list extends to a list it is a prefix of. -/
theorem listIsPref_append (p r : List Char) : listIsPref (p ++ r) p = true := by
  induction p with
  | nil => cases r <;> rfl
  | cons a as ih => simp [listIsPref, ih]

/-- `splitChar` always yields at least one group. -/
theorem splitChar_ne_nil (sep : Char) (l : List Char) : splitChar sep l ≠ [] := by
  cases l with
  | nil => simp [splitChar]
  | cons c cs =>
    cases hsc : splitChar sep cs with
    | nil => simp only [splitChar, hsc]; split <;> simp
    | cons h t => simp only [splitChar, hsc]; split <;> simp

/-- A leading separator opens an empty group. -/
theorem splitChar_sep_cons (sep : Char) (l : List Char) :
    splitChar sep (sep :: l) = [] :: splitChar sep l := by
  cases hsc : splitChar sep l with
  | nil => exact absurd hsc (splitChar_ne_nil sep l)
  | cons h t => simp [splitChar, hsc]

/-- Splitting a separator-free chunk followed by a separator peels the
chunk off as the first group. -/
theorem splitChar_append (sep : Char) (l1 l2 : List Char) (h : ∀ c ∈ l1, c ≠ sep) :
    splitChar sep (l1 ++ sep :: l2) = l1 :: splitChar sep l2 := by
  induction l1 with
  | nil =>
    simpa using splitChar_sep_cons sep l2
  | cons c cs ih =>
    have hc : c ≠ sep := h c (by simp)
    have ih' := ih (fun x hx => h x (by simp [hx]))
    have step : splitChar sep ((c :: cs) ++ sep :: l2)
        = match splitChar sep (cs ++ sep :: l2) with
          | [] => if c == sep then [[], []] else [[c]]
          | h :: t => if c == sep then [] :: h :: t else (c :: h) :: t := rfl
    rw [step, ih']
    simp [hc]

/-- Python's `path.split('/')` on `"/inbox/" + i + "/ack"` yields
`["", "inbox", i, "ack"]` whenever the id `i` is a single path segment
(contains no `'/'`). -/
theorem strSplit_inbox_ack (i : String) (hi : ∀ c ∈ i.data, c ≠ '/') :
    strSplit ("/inbox/" ++ i ++ "/ack") '/' = ["", "inbox", i, "ack"] := by
  have e1 : splitChar '/' (('/' : Char) ::
        (('i' :: 'n' :: 'b' :: 'o' :: 'x' :: [])
          ++ '/' :: (i.data ++ '/' :: ('a' :: 'c' :: 'k' :: []))))
      = [] :: splitChar '/'
          (('i' :: 'n' :: 'b' :: 'o' :: 'x' :: [])
            ++ '/' :: (i.data ++ '/' :: ('a' :: 'c' :: 'k' :: []))) :=
    splitChar_sep_cons '/' _
  have e2 : splitChar '/'
        (('i' :: 'n' :: 'b' :: 'o' :: 'x' :: [])
          ++ '/' :: (i.data ++ '/' :: ('a' :: 'c' :: 'k' :: [])))
      = ('i' :: 'n' :: 'b' :: 'o' :: 'x' :: [])
          :: splitChar '/' (i.data ++ '/' :: ('a' :: 'c' :: 'k' :: [])) :=
    splitChar_append '/' _ _ (by decide)
  have e3 : splitChar '/' (i.data ++ '/' :: ('a' :: 'c' :: 'k' :: []))
      = i.data :: splitChar '/' ('a' :: 'c' :: 'k' :: []) :=
    splitChar_append '/' _ _ hi
  have e4 : splitChar '/' ('a' :: 'c' :: 'k' :: []) = [('a' :: 'c' :: 'k' :: [])] := by
    decide
  show (splitChar '/' (('/' : Char) ::
        (('i' :: 'n' :: 'b' :: 'o' :: 'x' :: [])
          ++ '/' :: (i.data ++ '/' :: ('a' :: 'c' :: 'k' :: []))))).map
      (fun l => String.mk l) = ["", "inbox", i, "ack"]
  rw [e1, e2, e3, e4]
  rfl

/-- Python's `path.startswith("/inbox/")` holds on every ack-route path. -/
theorem strStarts_inbox_ack (i : String) :
    strStarts ("/inbox/" ++ i ++ "/ack") "/inbox/" = true := by
  show listIsPref (("/inbox/".data) ++ (i.data ++ "/ack".data)) ("/inbox/".data) = true
  exact listIsPref_append _ _

/-- Python's `path.endswith("/ack")` holds on every ack-route path. -/
theorem strEnds_inbox_ack (i : String) :
    strEnds ("/inbox/" ++ i ++ "/ack") "/ack" = true := by
  show listIsPref ((("/inbox/".data ++ i.data) ++ "/ack".data).reverse)
      ("/ack".data.reverse) = true
  rw [List.reverse_append]
  exact listIsPref_append _ _

/-- No ack-route path is the literal `"/events"`: the second characters
already differ. -/
theorem inbox_ack_path_ne_events (i : String) :
    (("/inbox/" ++ i ++ "/ack") == "/events") = false := by
  rw [beq_eq_false_iff_ne]
  intro h
  have hd : ('/' : Char) :: 'i' :: 'n' :: 'b' :: 'o' :: 'x' :: '/'
        :: (i.data ++ '/' :: 'a' :: 'c' :: 'k' :: [])
      = ('/' : Char) :: 'e' :: 'v' :: 'e' :: 'n' :: 't' :: 's' :: [] :=
    congrArg String.data h
  injection hd with h1 h2
  injection h2 with h3 h4
  exact absurd h3 (by decide)

/-- C10 — confirmed: for every authenticated ack request — any request
whose method is `POST`, whose path is `/inbox/{i}/ack` for a nonempty
single-segment id `i` (an empty id would be an empty DynamoDB key
attribute, which the store rejects and the handler turns into a 500;
an id containing `'/'` cannot be expressed as one path segment), and
whose credential resolves to any tenant — if no event with key
`(tenant, i)` was ever ingested, the handler answers
`200 {status: acknowledged}` and, because the unconditional DynamoDB
`update_item` upserts, the store afterwards holds a new item keyed
`(tenant, i)` with `status = "acknowledged"` (and empty non-key
attributes). -/
theorem ack_unknown_event_upserts (tbl : Table) (req : Request)
    (tenant i fid now : String)
    (hm : req.httpMethod = "POST")
    (hp : req.path = "/inbox/" ++ i ++ "/ack")
    (ha : get_tenant_from_auth req = some tenant)
    (hi : ∀ c ∈ i.data, c ≠ '/')
    (hne : i ≠ "")
    (hmiss : ∀ it ∈ tbl, ¬(it.tenant_id = tenant ∧ it.event_id = i)) :
    (handler tbl req fid now).1 = (200, .ackedResp i "acknowledged") ∧
    (handler tbl req fid now).2
      = tbl ++ [{ tenant_id := tenant, event_id := i, created_at := "",
                  source := "", type := "", topic := "", payload := "",
                  status := "acknowledged", idempotency_key := none }] := by
  have hsplit := strSplit_inbox_ack i hi
  have hstart := strStarts_inbox_ack i
  have hend := strEnds_inbox_ack i
  have hnev := inbox_ack_path_ne_events i
  have hne' : (i == "") = false := beq_eq_false_iff_ne.mpr hne
  have hany : tbl.any (keyMatches tenant i) = false := by
    rw [List.any_eq_false]
    intro it hit
    have hni := hmiss it hit
    simp only [keyMatches, Bool.and_eq_true, beq_iff_eq]
    exact fun hc => hni hc
  have hred : handler tbl req fid now
      = ((200, .ackedResp i "acknowledged"),
         update_status tbl tenant i "acknowledged") := by
    simp [handler, hm, hp, ha, hsplit, hstart, hend, hnev, hne',
      List.getD_cons_succ, List.getD_cons_zero]
  constructor
  · rw [hred]
  · rw [hred]
    simp [update_status, hany]

/-- Witness for C10: the dev credential, id `e9`, the empty store. -/
theorem ack_unknown_event_upserts_witness :
    (handler [] (ackReq "e9") "f1" "2025-01-05T00:00:00").1
      = (200, .ackedResp "e9" "acknowledged") ∧
    (handler [] (ackReq "e9") "f1" "2025-01-05T00:00:00").2
      = [] ++ [{ tenant_id := "tenant_dev", event_id := "e9", created_at := "",
                 source := "", type := "", topic := "", payload := "",
                 status := "acknowledged", idempotency_key := none }] :=
  ack_unknown_event_upserts [] (ackReq "e9") "tenant_dev" "e9"
    "f1" "2025-01-05T00:00:00" rfl rfl (by decide) (by decide) (by decide)
    (by intro it hit; cases hit)

end ZapStream
